import Mathlib

/-!
# Verification of the Kosmos research control plane

Shallow embedding of the three core components of the Kosmos repository
(`src/kosmos/core/feedback.py`, `src/kosmos/core/memory.py`,
`src/kosmos/core/convergence.py`) together with proofs of the spec claims
about them.

Modelling conventions:
* Python floats are modelled as rationals (`ℚ`); none of the verified
  properties depends on binary floating-point rounding.
* `datetime` values are modelled as integers (`ℤ`) counting days; the only
  datetime arithmetic the verified code performs is day-difference
  comparison and "days since" division.
* Python dicts that are used in insertion order (`success_patterns`,
  `failure_patterns`, `experiment_signatures`) are modelled as ordered
  association lists with overwrite-on-existing-key semantics.
* Code that can raise is modelled in `Except String`; code that cannot
  raise is modelled as a pure function.
* `md5` hashes are modelled by abstract hash-function parameters
  (`h16` for the 16-hex-digit truncated digest, `h32` for the full digest);
  every theorem about hashing quantifies over those functions.
* In-place mutation of pydantic objects held in lists is modelled by
  value-level replacement; where Python object identity matters
  (removal of a signal from the pending queue, access bookkeeping on
  returned memories) the embedding identifies objects by value or by id
  and the theorems carry the corresponding distinctness hypotheses.
-/

namespace Kosmos

/-! ## External data model

The pydantic models `kosmos.models.result`, `kosmos.models.hypothesis`,
`kosmos.models.experiment` and `kosmos.core.workflow` are not under `src/`;
only the core modules that consume them are. They are modelled from the
spec (section 3 "DATA MODEL") with exactly the fields the core reads. -/

/-- Modelled from the spec: `kosmos.models.result.ResultStatus` is not under
`src/`; the spec describes the outcome status as success/failure/other. -/
inductive ResultStatus where
  | success
  | failure
  | other
deriving DecidableEq, Repr

/-- Modelled from the spec: `kosmos.models.result.ExperimentResult` is not
under `src/`. Fields per spec §3: id, outcome status, tri-state
`supports_hypothesis`, primary statistical test name, p-value, effect size
(the numeric fields possibly null). The model has no `metadata` attribute,
so `hasattr(result, 'metadata')` is always false in the embedded code. -/
structure ExperimentResult where
  id : String
  status : ResultStatus
  supports_hypothesis : Option Bool
  primary_test : String
  primary_p_value : Option ℚ
  primary_effect_size : Option ℚ
deriving DecidableEq, Repr

/-- Modelled from the spec: `kosmos.models.hypothesis.Hypothesis` is not
under `src/`. Fields per spec §3: id, statement, domain,
novelty/testability/confidence scores (each optional, range [0,1]). -/
structure Hypothesis where
  id : String
  statement : String
  domain : String
  novelty_score : Option ℚ
  testability_score : Option ℚ
  confidence_score : Option ℚ
deriving DecidableEq, Repr

/-- Modelled from the spec: `kosmos.models.experiment.ExperimentProtocol` is
not under `src/`. The deduplication code reads an id, `experiment_type` and
`methodology`. -/
structure ExperimentProtocol where
  id : String
  experiment_type : String
  methodology : String
deriving DecidableEq, Repr

/-- Modelled from the spec: `kosmos.core.workflow.ResearchPlan` is not under
`src/`. Fields per spec §3: iteration count, max iterations, pools of
hypotheses (total, tested, supported, rejected, identified by id), queued
experiments, convergence flag. -/
structure ResearchPlan where
  research_question : String
  iteration_count : ℕ
  max_iterations : ℕ
  hypothesis_pool : List String
  tested_hypotheses : List String
  supported_hypotheses : List String
  rejected_hypotheses : List String
  experiment_queue : List String
  has_converged : Bool
deriving DecidableEq, Repr

/-- Modelled from the spec: `ResearchPlan.get_untested_hypotheses` is not
under `src/`; per spec, the untested pool is the hypothesis pool minus the
tested set. -/
def ResearchPlan.get_untested_hypotheses (plan : ResearchPlan) : List String :=
  plan.hypothesis_pool.filter (fun h => !plan.tested_hypotheses.contains h)

/-- Modelled from the spec: `ResearchPlan.get_testability_rate` is not under
`src/`; per spec §4.1, `saturation_ratio` = tested-hypothesis count / total
hypothesis-pool count (0 when the pool is empty). -/
def ResearchPlan.get_testability_rate (plan : ResearchPlan) : ℚ :=
  if plan.hypothesis_pool.length = 0 then 0
  else (plan.tested_hypotheses.length : ℚ) / (plan.hypothesis_pool.length : ℚ)

/-! ## Shared helpers -/

/-- Ordered association list with Python-dict semantics: assigning to an
existing key overwrites it in place (keeping its position), assigning a new
key appends it. -/
def dictInsert {α : Type} (m : List (String × α)) (k : String) (v : α) :
    List (String × α) :=
  if m.any (fun e => e.1 == k) then
    m.map (fun e => if e.1 == k then (k, v) else e)
  else
    m ++ [(k, v)]

/-- Fixed two-decimal rendering used by f-string `:.2f` interpolations.
No verified property depends on the produced text (only on whether the
formatting raises, which it does exactly on `None`). -/
def pyFormat2f (q : ℚ) : String :=
  let n : ℤ := ⌊q * 100 + 1 / 2⌋
  toString n

/-- `str.capitalize` on the fixed failure-category strings. -/
def pyCapitalize (s : String) : String :=
  match s.data with
  | [] => ""
  | c :: rest => String.mk (c.toUpper :: rest.map Char.toLower)

/-! ## FeedbackLoop (`src/kosmos/core/feedback.py`) -/

/-- `FeedbackSignalType` enum (feedback.py lines 24-32). -/
inductive FeedbackSignalType where
  | success_pattern
  | failure_pattern
  | hypothesis_update
  | strategy_adjustment
  | template_update
  | priority_change
deriving DecidableEq, Repr

/-- `hypothesis_characteristics` dict built in `_extract_success_pattern`. -/
structure HypothesisCharacteristics where
  domain : String
  testability_score : Option ℚ
  novelty_score : Option ℚ
deriving DecidableEq, Repr

/-- `experiment_design` dict built in `_extract_success_pattern`.
`sample_size` is omitted: the modelled `ExperimentResult` has no `metadata`
attribute, so the source's conditional always evaluates to the empty dict. -/
structure ExperimentDesign where
  test_type : String
deriving DecidableEq, Repr

/-- `statistical_approach` dict built in `_extract_success_pattern`. -/
structure StatisticalApproach where
  p_value : Option ℚ
  effect_size : Option ℚ
  effect_size_type : String
deriving DecidableEq, Repr

/-- `SuccessPattern` (feedback.py lines 46-59). -/
structure SuccessPattern where
  pattern_id : String
  description : String
  hypothesis_characteristics : HypothesisCharacteristics
  experiment_design : ExperimentDesign
  statistical_approach : StatisticalApproach
  occurrences : ℕ
  success_rate : ℚ
  confidence : ℚ
  examples : List String
  created_at : ℤ
  updated_at : ℤ
deriving DecidableEq, Repr

/-- `common_characteristics` dict built in `_extract_failure_pattern`. -/
structure CommonCharacteristics where
  domain : String
  test_type : String
deriving DecidableEq, Repr

/-- `FailurePattern` (feedback.py lines 62-73). -/
structure FailurePattern where
  pattern_id : String
  description : String
  failure_type : String
  common_characteristics : CommonCharacteristics
  recommended_fixes : List String
  occurrences : ℕ
  examples : List String
  created_at : ℤ
  updated_at : ℤ
deriving DecidableEq, Repr

/-- The `data` payload dict of a `FeedbackSignal`, with one optional slot per
key the source ever stores or reads. -/
structure SignalData where
  pattern_id : Option String
  success_pattern : Option SuccessPattern
  failure_pattern : Option FailurePattern
  action : Option String
  target : Option String
  recommended_fixes : List String
  hypothesis_id : Option String
  update_value : Option ℚ
  supports : Option Bool
  p_value : Option ℚ
  effect_size : Option ℚ
deriving DecidableEq, Repr

/-- The empty `data` payload. -/
def SignalData.empty : SignalData :=
  { pattern_id := none, success_pattern := none, failure_pattern := none,
    action := none, target := none, recommended_fixes := [],
    hypothesis_id := none, update_value := none, supports := none,
    p_value := none, effect_size := none }

/-- `FeedbackSignal` (feedback.py lines 35-43). -/
structure FeedbackSignal where
  signal_type : FeedbackSignalType
  source : String
  data : SignalData
  confidence : ℚ
  timestamp : ℤ
  applied : Bool
deriving DecidableEq, Repr

/-- Mutable state of a `FeedbackLoop` instance (feedback.py lines 84-105).
The pattern tables are insertion-ordered dicts keyed by pattern id. -/
structure FeedbackLoop where
  success_patterns : List (String × SuccessPattern)
  failure_patterns : List (String × FailurePattern)
  pending_signals : List FeedbackSignal
  applied_signals : List FeedbackSignal
  success_learning_rate : ℚ
  failure_learning_rate : ℚ
deriving DecidableEq, Repr

/-- `FeedbackLoop.__init__` with the default (empty) config. -/
def FeedbackLoop.init : FeedbackLoop :=
  { success_patterns := [], failure_patterns := [],
    pending_signals := [], applied_signals := [],
    success_learning_rate := 3 / 10, failure_learning_rate := 4 / 10 }

/-- `FeedbackLoop._extract_success_pattern` (feedback.py lines 269-298).
The description f-string formats `result.primary_effect_size` with `:.2f`,
which raises `TypeError` when the effect size is `None`; nothing in the
source catches that exception. -/
def extractSuccessPattern (result : ExperimentResult) (hypothesis : Hypothesis)
    (now : ℤ) : Except String SuccessPattern :=
  match result.primary_effect_size with
  | none =>
      .error "TypeError: unsupported format string passed to NoneType.__format__"
  | some es =>
      .ok
        { pattern_id := ""
          description := "Successful " ++ result.primary_test ++
            " with effect size " ++ pyFormat2f es
          hypothesis_characteristics :=
            { domain := hypothesis.domain,
              testability_score := hypothesis.testability_score,
              novelty_score := hypothesis.novelty_score }
          experiment_design := { test_type := result.primary_test }
          statistical_approach :=
            { p_value := result.primary_p_value, effect_size := some es,
              effect_size_type := "Cohen\x27s d" }
          occurrences := 1
          success_rate := 1
          confidence := 1 / 2
          examples := [result.id]
          created_at := now
          updated_at := now }

/-- `FeedbackLoop._find_similar_success_pattern` (feedback.py lines 347-355):
first stored pattern with the same `test_type`, in insertion order. -/
def findSimilarSuccessPattern (st : FeedbackLoop) (pattern : SuccessPattern) :
    Option (String × SuccessPattern) :=
  st.success_patterns.find?
    (fun e => e.2.experiment_design.test_type == pattern.experiment_design.test_type)

/-- The `success_pattern` signal emitted by `_analyze_success`
(feedback.py lines 184-194). Note the payload carries the freshly extracted
pattern object while `pattern_id` is the id chosen for storage. -/
def mkSuccessSignal (result : ExperimentResult) (pattern : SuccessPattern)
    (chosen_id : String) (now : ℤ) : FeedbackSignal :=
  { signal_type := .success_pattern
    source := result.id
    data := { SignalData.empty with
      pattern_id := some chosen_id
      success_pattern := some pattern
      action := some "increase_priority"
      target := some "similar_hypotheses" }
    confidence := pattern.confidence
    timestamp := now
    applied := false }

/-- `FeedbackLoop._analyze_success` (feedback.py lines 148-196). -/
def analyzeSuccess (st : FeedbackLoop) (result : ExperimentResult)
    (hypothesis : Hypothesis) (now : ℤ) :
    Except String (List FeedbackSignal × FeedbackLoop) :=
  match extractSuccessPattern result hypothesis now with
  | .error e => .error e
  | .ok pattern =>
  match findSimilarSuccessPattern st pattern with
  | some (key, existing) =>
      let occ : ℕ := existing.occurrences + 1
      let updated : SuccessPattern :=
        { existing with
          occurrences := occ
          examples := existing.examples ++ [result.id]
          success_rate := (existing.success_rate * ((occ : ℚ) - 1) + 1) / (occ : ℚ)
          confidence := min 1 (existing.confidence + 1 / 10)
          updated_at := now }
      let st' : FeedbackLoop :=
        { st with success_patterns :=
            st.success_patterns.map (fun e => if e.1 == key then (key, updated) else e) }
      .ok ([mkSuccessSignal result pattern existing.pattern_id now], st')
  | none =>
      let pid := "success_" ++ toString (st.success_patterns.length + 1)
      let pattern' := { pattern with pattern_id := pid }
      let st' : FeedbackLoop :=
        { st with success_patterns := dictInsert st.success_patterns pid pattern' }
      .ok ([mkSuccessSignal result pattern' pid now], st')

/-- `FeedbackLoop._categorize_failure` (feedback.py lines 246-267). -/
def categorizeFailure (result : ExperimentResult) : String :=
  if result.status == .failure then "execution_error"
  else
    match result.primary_p_value, result.primary_effect_size with
    | some p, some es =>
        if p > 1 / 20 then
          if |es| < 1 / 5 then "underpowered" else "statistical"
        else "conceptual"
    | _, _ => "conceptual"

/-- The fixed fix lists of `_extract_failure_pattern` (feedback.py 308-329). -/
def recommendedFixesFor (failure_type : String) : List String :=
  if failure_type == "underpowered" then
    ["Increase sample size", "Use more sensitive statistical test",
     "Reduce measurement error"]
  else if failure_type == "statistical" then
    ["Check for outliers", "Verify assumptions", "Consider non-parametric test"]
  else if failure_type == "conceptual" then
    ["Refine hypothesis", "Add moderating variables", "Explore boundary conditions"]
  else ["Review experimental design"]

/-- `FeedbackLoop._extract_failure_pattern` (feedback.py lines 300-345);
its f-string interpolates only strings, so it never raises. -/
def extractFailurePattern (result : ExperimentResult) (hypothesis : Hypothesis)
    (failure_type : String) (now : ℤ) : FailurePattern :=
  { pattern_id := ""
    description := pyCapitalize failure_type ++ " failure in " ++ result.primary_test
    failure_type := failure_type
    common_characteristics :=
      { domain := hypothesis.domain, test_type := result.primary_test }
    recommended_fixes := recommendedFixesFor failure_type
    occurrences := 1
    examples := [result.id]
    created_at := now
    updated_at := now }

/-- `FeedbackLoop._find_similar_failure_pattern` (feedback.py lines 357-364). -/
def findSimilarFailurePattern (st : FeedbackLoop) (pattern : FailurePattern) :
    Option (String × FailurePattern) :=
  st.failure_patterns.find? (fun e => e.2.failure_type == pattern.failure_type)

/-- The `failure_pattern` signal emitted by `_analyze_failure`
(feedback.py lines 232-242). -/
def mkFailureSignal (result : ExperimentResult) (pattern : FailurePattern)
    (chosen_id : String) (now : ℤ) : FeedbackSignal :=
  { signal_type := .failure_pattern
    source := result.id
    data := { SignalData.empty with
      pattern_id := some chosen_id
      failure_pattern := some pattern
      action := some "avoid_pattern"
      recommended_fixes := pattern.recommended_fixes }
    confidence := 4 / 5
    timestamp := now
    applied := false }

/-- `FeedbackLoop._analyze_failure` (feedback.py lines 198-244). -/
def analyzeFailure (st : FeedbackLoop) (result : ExperimentResult)
    (hypothesis : Hypothesis) (now : ℤ) : List FeedbackSignal × FeedbackLoop :=
  let failure_type := categorizeFailure result
  let pattern := extractFailurePattern result hypothesis failure_type now
  match findSimilarFailurePattern st pattern with
  | some (key, existing) =>
      let updated : FailurePattern :=
        { existing with
          occurrences := existing.occurrences + 1
          examples := existing.examples ++ [result.id]
          updated_at := now }
      let st' : FeedbackLoop :=
        { st with failure_patterns :=
            st.failure_patterns.map (fun e => if e.1 == key then (key, updated) else e) }
      ([mkFailureSignal result pattern existing.pattern_id now], st')
  | none =>
      let pid := "failure_" ++ toString (st.failure_patterns.length + 1)
      let pattern' := { pattern with pattern_id := pid }
      let st' : FeedbackLoop :=
        { st with failure_patterns := dictInsert st.failure_patterns pid pattern' }
      ([mkFailureSignal result pattern' pid now], st')

/-- `FeedbackLoop._generate_hypothesis_update_signal`
(feedback.py lines 366-397). -/
def generateHypothesisUpdateSignal (st : FeedbackLoop) (result : ExperimentResult)
    (hypothesis : Hypothesis) (now : ℤ) : FeedbackSignal :=
  let pair : String × ℚ :=
    match result.supports_hypothesis with
    | some true => ("increase_confidence", st.success_learning_rate)
    | some false => ("decrease_confidence", st.failure_learning_rate)
    | none => ("no_change", 0)
  { signal_type := .hypothesis_update
    source := result.id
    data := { SignalData.empty with
      hypothesis_id := some hypothesis.id
      action := some pair.1
      update_value := some pair.2
      supports := result.supports_hypothesis
      p_value := result.primary_p_value
      effect_size := result.primary_effect_size }
    confidence := 1
    timestamp := now
    applied := false }

/-- `FeedbackLoop.process_result_feedback` (feedback.py lines 111-146).
There is no exception handler anywhere in this method or its callees, so an
extraction error propagates (the `Except` bind) and in that case no signal
is returned and the pending queue is left untouched. -/
def processResultFeedback (st : FeedbackLoop) (result : ExperimentResult)
    (hypothesis : Hypothesis) (now : ℤ) :
    Except String (List FeedbackSignal × FeedbackLoop) :=
  match
    (if result.supports_hypothesis == some true && result.status == .success then
      analyzeSuccess st result hypothesis now
    else if result.supports_hypothesis == some false || result.status == .failure then
      .ok (analyzeFailure st result hypothesis now)
    else
      .ok ([], st) : Except String (List FeedbackSignal × FeedbackLoop))
  with
  | .error e => .error e
  | .ok (signals0, st') =>
      let signals := signals0 ++ [generateHypothesisUpdateSignal st' result hypothesis now]
      .ok (signals, { st' with pending_signals := st'.pending_signals ++ signals })

/-- The `changes` dict returned by `apply_feedback` (feedback.py 422-426). -/
structure Changes where
  hypotheses_updated : List String
  strategies_adjusted : List String
  templates_modified : List String
deriving DecidableEq, Repr

/-- The empty `changes` dict. -/
def Changes.empty : Changes :=
  { hypotheses_updated := [], strategies_adjusted := [], templates_modified := [] }

/-- Python truthiness of `hypothesis.confidence_score or 0.5`: both `None`
and `0.0` fall back to `0.5`. -/
def pyOrHalf (c : Option ℚ) : ℚ :=
  match c with
  | none => 1 / 2
  | some x => if x == 0 then 1 / 2 else x

/-- In-place mutation of the first hypothesis object with the given id
(`next((h for h in hypotheses if h.id == hypothesis_id), None)` followed by
assignment to its `confidence_score`). -/
def setFirstConfidence (hypotheses : List Hypothesis) (hid : String) (c : ℚ) :
    List Hypothesis :=
  match hypotheses with
  | [] => []
  | h :: rest =>
      if h.id == hid then { h with confidence_score := some c } :: rest
      else h :: setFirstConfidence rest hid c

/-- `FeedbackLoop.apply_feedback` (feedback.py lines 403-465). Returns the
changes dict, the (possibly mutated) hypothesis list, and the new loop
state. The signal object is marked applied and appended to
`applied_signals` unconditionally — the source never consults the
`applied` flag — and `pending_signals.remove(signal)` drops the first
matching queue entry when one exists. -/
def applyFeedback (st : FeedbackLoop) (signal : FeedbackSignal)
    (hypotheses : List Hypothesis) : Changes × List Hypothesis × FeedbackLoop :=
  let step : Changes × List Hypothesis :=
    if signal.signal_type == .hypothesis_update then
      match signal.data.hypothesis_id with
      | some hid =>
          match hypotheses.find? (fun h => h.id == hid) with
          | some h =>
              let v := signal.data.update_value.getD 0
              if signal.data.action == some "increase_confidence" then
                ({ Changes.empty with hypotheses_updated := [hid] },
                 setFirstConfidence hypotheses hid (min 1 (pyOrHalf h.confidence_score + v)))
              else if signal.data.action == some "decrease_confidence" then
                ({ Changes.empty with hypotheses_updated := [hid] },
                 setFirstConfidence hypotheses hid (max 0 (pyOrHalf h.confidence_score - v)))
              else (Changes.empty, hypotheses)
          | none => (Changes.empty, hypotheses)
      | none => (Changes.empty, hypotheses)
    else if signal.signal_type == .success_pattern then
      ({ Changes.empty with strategies_adjusted := ["success_pattern_applied"] }, hypotheses)
    else if signal.signal_type == .failure_pattern then
      ({ Changes.empty with strategies_adjusted := ["failure_pattern_avoided"] }, hypotheses)
    else (Changes.empty, hypotheses)
  let st' : FeedbackLoop :=
    { st with
      applied_signals := st.applied_signals ++ [{ signal with applied := true }]
      pending_signals := st.pending_signals.erase signal }
  (step.1, step.2, st')

/-! ## MemoryStore (`src/kosmos/core/memory.py`) -/

/-- `MemoryCategory` enum (memory.py lines 26-33), in declaration order
(which is also the Python iteration order of `list(MemoryCategory)`). -/
inductive MemoryCategory where
  | success_patterns
  | failure_patterns
  | dead_ends
  | insights
  | general
deriving DecidableEq, Repr

/-- `list(MemoryCategory)` in enum declaration order. -/
def MemoryCategory.all : List MemoryCategory :=
  [.success_patterns, .failure_patterns, .dead_ends, .insights, .general]

/-- `Memory` (memory.py lines 36-52). The `data` payload dict is modelled as
an association list of opaque string values; nothing in the core reads it
back. -/
structure Memory where
  id : String
  category : MemoryCategory
  content : String
  data : List (String × String)
  importance : ℚ
  access_count : ℕ
  created_at : ℤ
  last_accessed : ℤ
  tags : List String
deriving DecidableEq, Repr

/-- `Memory.access` (memory.py lines 49-52). -/
def Memory.access (m : Memory) (now : ℤ) : Memory :=
  { m with access_count := m.access_count + 1, last_accessed := now }

/-- `ExperimentSignature` (memory.py lines 55-63). -/
structure ExperimentSignature where
  hypothesis_hash : String
  protocol_hash : String
  combined_hash : String
  hypothesis_id : Option String
  protocol_id : Option String
  created_at : ℤ
deriving DecidableEq, Repr

/-- Mutable state of a `MemoryStore` instance (memory.py lines 77-104):
per-category memory lists, the signature dict, and the pruning
configuration. -/
structure MemoryStore where
  max_memories : ℕ
  prune_after_days : ℤ
  min_importance_to_keep : ℚ
  memories : MemoryCategory → List Memory
  experiment_signatures : List (String × ExperimentSignature)

/-- `MemoryStore.__init__` with the default config. -/
def MemoryStore.init : MemoryStore :=
  { max_memories := 1000, prune_after_days := 30,
    min_importance_to_keep := 3 / 10,
    memories := fun _ => [], experiment_signatures := [] }

/-- The retention predicate of `MemoryStore._prune_category`
(memory.py lines 502-507): keep iff importance is at or above the floor, or
creation lies strictly inside the pruning window, or the memory was ever
accessed. -/
def pruneKeep (st : MemoryStore) (now : ℤ) (m : Memory) : Bool :=
  decide (st.min_importance_to_keep ≤ m.importance) ||
  decide (now - st.prune_after_days < m.created_at) ||
  decide (0 < m.access_count)

/-- `MemoryStore._prune_category` (memory.py lines 485-517): a pure filter
over the category's own list (the early return on an empty list filters
nothing either way). -/
def pruneCategory (st : MemoryStore) (category : MemoryCategory) (now : ℤ) :
    MemoryStore :=
  { st with memories := fun c =>
      if c = category then (st.memories c).filter (pruneKeep st now)
      else st.memories c }

/-- `MemoryStore.add_memory` (memory.py lines 110-152). `h16` is the
truncated md5 used for id generation (applied to the
category:content:timestamp string). -/
def addMemory (st : MemoryStore) (h16 : String → String) (category : MemoryCategory)
    (content : String) (data : List (String × String)) (importance : ℚ)
    (tags : List String) (now : ℤ) : String × MemoryStore :=
  let memory_id := h16 (toString (repr category) ++ ":" ++ content ++ ":" ++ toString now)
  let memory : Memory :=
    { id := memory_id, category := category, content := content, data := data,
      importance := importance, access_count := 0, created_at := now,
      last_accessed := now, tags := tags }
  let st' := { st with memories := fun c =>
      if c = category then st.memories c ++ [memory] else st.memories c }
  let st'' :=
    if st.max_memories / MemoryCategory.all.length < (st'.memories category).length then
      pruneCategory st' category now
    else st'
  (memory_id, st'')

/-- The ranking key of `query_memory` (memory.py line 340):
`importance * (1.0 / max(1, days_since_creation + 1))`. -/
def queryKey (now : ℤ) (m : Memory) : ℚ :=
  m.importance * (1 / ((max 1 (now - m.created_at + 1) : ℤ) : ℚ))

/-- `MemoryStore.query_memory` (memory.py lines 298-348). Returns the
(access-recorded) result objects and the post-query store. The Python
`tags` default of `None` and an empty tag list both skip the tag filter
(`if tags and ...`), so tags are modelled as a plain list where `[]` means
no filter. Sorting uses a stable merge sort on the descending key order,
matching Python's stable `list.sort(reverse=True)`. -/
def queryMemory (st : MemoryStore) (category : Option MemoryCategory)
    (tags : List String) (min_importance : ℚ) (limit : ℕ) (now : ℤ) :
    List Memory × MemoryStore :=
  let categories := match category with
    | some c => [c]
    | none => MemoryCategory.all
  let results := categories.flatMap (fun c =>
    (st.memories c).filter (fun m =>
      decide (min_importance ≤ m.importance) &&
      (tags.isEmpty || tags.any (fun t => m.tags.contains t))))
  let sorted := results.mergeSort (fun a b => decide (queryKey now b ≤ queryKey now a))
  let picked := sorted.take limit
  let pickedIds := picked.map (fun m => m.id)
  let st' : MemoryStore :=
    { st with memories := fun c =>
        (st.memories c).map (fun m =>
          if pickedIds.contains m.id then m.access now else m) }
  (picked.map (fun m => m.access now), st')

/-- The protocol-hash computation shared by `record_experiment` and
`is_duplicate_experiment` (memory.py lines 409-413 and 456-460). -/
def protocolHashOf (h16 : String → String) (protocol : Option ExperimentProtocol) :
    String :=
  match protocol with
  | some p => h16 (p.experiment_type ++ ":" ++ p.methodology)
  | none => "none"

/-- `MemoryStore.record_experiment` (memory.py lines 388-432). `h16` is the
truncated md5, `h32` the full md5. The signature dict is keyed by the
combined hash. -/
def recordExperiment (st : MemoryStore) (h16 h32 : String → String)
    (hypothesis : Hypothesis) (protocol : Option ExperimentProtocol) (now : ℤ) :
    String × MemoryStore :=
  let hypothesis_hash := h16 hypothesis.statement
  let protocol_hash := protocolHashOf h16 protocol
  let combined_hash := h32 (hypothesis_hash ++ ":" ++ protocol_hash)
  let signature : ExperimentSignature :=
    { hypothesis_hash := hypothesis_hash, protocol_hash := protocol_hash,
      combined_hash := combined_hash, hypothesis_id := some hypothesis.id,
      protocol_id := protocol.map (fun p => p.id), created_at := now }
  (combined_hash,
   { st with experiment_signatures :=
       dictInsert st.experiment_signatures combined_hash signature })

/-- `MemoryStore.is_duplicate_experiment` (memory.py lines 434-479). -/
def isDuplicateExperiment (st : MemoryStore) (h16 h32 : String → String)
    (hypothesis : Hypothesis) (protocol : Option ExperimentProtocol) :
    Bool × Option String :=
  let hypothesis_hash := h16 hypothesis.statement
  let protocol_hash := protocolHashOf h16 protocol
  let combined_hash := h32 (hypothesis_hash ++ ":" ++ protocol_hash)
  if st.experiment_signatures.any (fun e => e.1 == combined_hash) then
    (true, some "Exact duplicate (same hypothesis + same protocol)")
  else
    let similar_hyp :=
      st.experiment_signatures.countP (fun e => e.2.hypothesis_hash == hypothesis_hash)
    if 0 < similar_hyp then
      (true, some ("Similar hypothesis tested " ++ toString similar_hyp ++ " time(s)"))
    else
      (false, none)

/-! ## ConvergenceDetector (`src/kosmos/core/convergence.py`) -/

/-- `StoppingReason` enum (convergence.py lines 24-32). -/
inductive StoppingReason where
  | iteration_limit
  | no_testable_hypotheses
  | novelty_decline
  | diminishing_returns
  | all_hypotheses_tested
  | user_requested
deriving DecidableEq, Repr

/-- `ConvergenceMetrics` (convergence.py lines 35-72). -/
structure ConvergenceMetrics where
  discovery_rate : ℚ
  total_experiments : ℕ
  significant_results : ℕ
  novelty_score : ℚ
  novelty_trend : List ℚ
  novelty_declining : Bool
  saturation_ratio : ℚ
  hypotheses_tested : ℕ
  total_hypotheses : ℕ
  consistency_score : ℚ
  replicated_findings : ℕ
  total_findings : ℕ
  iteration_count : ℕ
  max_iterations : ℕ
  total_cost : ℚ
  cost_per_discovery : Option ℚ
  start_time : ℤ
  last_update : ℤ
deriving DecidableEq, Repr

/-- Default-constructed `ConvergenceMetrics()` at time `now`. -/
def ConvergenceMetrics.init (now : ℤ) : ConvergenceMetrics :=
  { discovery_rate := 0, total_experiments := 0, significant_results := 0,
    novelty_score := 0, novelty_trend := [], novelty_declining := false,
    saturation_ratio := 0, hypotheses_tested := 0, total_hypotheses := 0,
    consistency_score := 0, replicated_findings := 0, total_findings := 0,
    iteration_count := 0, max_iterations := 10, total_cost := 0,
    cost_per_discovery := none, start_time := now, last_update := now }

/-- `StoppingDecision` (convergence.py lines 75-83). -/
structure StoppingDecision where
  should_stop : Bool
  reason : StoppingReason
  is_mandatory : Bool
  confidence : ℚ
  details : String
  timestamp : ℤ
deriving DecidableEq, Repr

/-- Mutable state of a `ConvergenceDetector` instance
(convergence.py lines 179-208). -/
structure ConvergenceDetector where
  mandatory_criteria : List String
  optional_criteria : List String
  novelty_decline_threshold : ℚ
  novelty_decline_window : ℕ
  cost_per_discovery_threshold : ℚ
  metrics : ConvergenceMetrics
deriving DecidableEq, Repr

/-- `ConvergenceDetector.__init__` with default criteria and config. -/
def ConvergenceDetector.init (now : ℤ) : ConvergenceDetector :=
  { mandatory_criteria := ["iteration_limit", "no_testable_hypotheses"]
    optional_criteria := ["novelty_decline", "diminishing_returns"]
    novelty_decline_threshold := 3 / 10
    novelty_decline_window := 5
    cost_per_discovery_threshold := 1000
    metrics := ConvergenceMetrics.init now }

/-- `ConvergenceDetector.check_iteration_limit` (convergence.py 295-313). -/
def checkIterationLimit (plan : ResearchPlan) (now : ℤ) : StoppingDecision :=
  { should_stop := decide (plan.max_iterations ≤ plan.iteration_count)
    reason := .iteration_limit
    is_mandatory := true
    confidence := 1
    details := "Iteration " ++ toString plan.iteration_count ++ "/" ++
      toString plan.max_iterations
    timestamp := now }

/-- `ConvergenceDetector.check_hypothesis_exhaustion`
(convergence.py 315-341). -/
def checkHypothesisExhaustion (plan : ResearchPlan) (now : ℤ) : StoppingDecision :=
  let untested := plan.get_untested_hypotheses
  { should_stop := untested.isEmpty && plan.experiment_queue.isEmpty
    reason := .no_testable_hypotheses
    is_mandatory := true
    confidence := 1
    details := toString untested.length ++ " untested hypotheses, " ++
      toString plan.experiment_queue.length ++ " queued experiments"
    timestamp := now }

/-- The pairwise non-increasing check
`all(recent[i] >= recent[i+1] for i in range(len(recent)-1))`. -/
def nonincreasingQ : List ℚ → Bool
  | a :: b :: rest => decide (b ≤ a) && nonincreasingQ (b :: rest)
  | _ => true

/-- `ConvergenceDetector.check_novelty_decline` (convergence.py 347-383). -/
def checkNoveltyDecline (det : ConvergenceDetector) (now : ℤ) : StoppingDecision :=
  let trend := det.metrics.novelty_trend
  if trend.length < det.novelty_decline_window then
    { should_stop := false
      reason := .novelty_decline
      is_mandatory := false
      confidence := 0
      details := "Insufficient data (" ++ toString trend.length ++ "/" ++
        toString det.novelty_decline_window ++ " points)"
      timestamp := now }
  else
    let recent := trend.drop (trend.length - det.novelty_decline_window)
    let all_below := recent.all (fun v => decide (v < det.novelty_decline_threshold))
    let is_declining := nonincreasingQ recent
    let stop := all_below || is_declining
    { should_stop := stop
      reason := .novelty_decline
      is_mandatory := false
      confidence := if stop then 4 / 5 else 1 / 5
      details := "Recent novelty: " ++ toString recent ++ ", threshold: " ++
        toString det.novelty_decline_threshold
      timestamp := now }

/-- `ConvergenceDetector.check_diminishing_returns` (convergence.py 385-409). -/
def checkDiminishingReturns (det : ConvergenceDetector) (now : ℤ) : StoppingDecision :=
  match det.metrics.cost_per_discovery with
  | none =>
      { should_stop := false, reason := .diminishing_returns, is_mandatory := false,
        confidence := 0, details := "No cost data available", timestamp := now }
  | some cpd =>
      let stop := decide (det.cost_per_discovery_threshold < cpd)
      { should_stop := stop, reason := .diminishing_returns, is_mandatory := false,
        confidence := if stop then 7 / 10 else 3 / 10,
        details := "Cost per discovery: $" ++ toString cpd ++ " (threshold: $" ++
          toString det.cost_per_discovery_threshold ++ ")",
        timestamp := now }

/-- `ConvergenceDetector._check_criterion` (convergence.py 259-289):
string-keyed dispatch; unknown names yield a non-stopping decision with
confidence 0 and the caller's mandatory flag. -/
def checkCriterion (det : ConvergenceDetector) (criterion : String)
    (plan : ResearchPlan) (now : ℤ) (mandatory : Bool) : StoppingDecision :=
  if criterion == "iteration_limit" then checkIterationLimit plan now
  else if criterion == "no_testable_hypotheses" then checkHypothesisExhaustion plan now
  else if criterion == "novelty_decline" then checkNoveltyDecline det now
  else if criterion == "diminishing_returns" then checkDiminishingReturns det now
  else
    { should_stop := false, reason := .user_requested, is_mandatory := mandatory,
      confidence := 0, details := "Unknown criterion: " ++ criterion,
      timestamp := now }

/-- `ConvergenceDetector.calculate_discovery_rate` (convergence.py 415-430). -/
def calculateDiscoveryRate (results : List ExperimentResult) : ℚ :=
  if results.isEmpty then 0
  else ((results.countP (fun r => r.supports_hypothesis == some true) : ℚ)) /
    (results.length : ℚ)

/-- `ConvergenceDetector.calculate_novelty_decline` (convergence.py 432-461):
current novelty is the last non-null novelty score in creation order;
declining iff the last three such scores are non-increasing. -/
def calculateNoveltyDecline (hypotheses : List Hypothesis) : ℚ × Bool :=
  if hypotheses.isEmpty then (0, false)
  else
    let novelty_scores := hypotheses.filterMap (fun h => h.novelty_score)
    match novelty_scores.getLast? with
    | none => (0, false)
    | some current =>
        let is_declining :=
          if 3 ≤ novelty_scores.length then
            nonincreasingQ (novelty_scores.drop (novelty_scores.length - 3))
          else false
        (current, is_declining)

/-- `ConvergenceDetector.calculate_consistency` (convergence.py 475-492). -/
def calculateConsistency (results : List ExperimentResult) : ℚ :=
  if results.isEmpty then 0
  else ((results.countP (fun r => r.supports_hypothesis == some true) : ℚ)) /
    (results.length : ℚ)

/-- `ConvergenceDetector._update_metrics` (convergence.py 494-531). Note
line 510: the current novelty is *appended* to `novelty_trend`; every other
recomputed field is overwritten, while `total_cost`, `start_time` and the
pattern of `cost_per_discovery` on the prior `total_cost` carry state over. -/
def updateMetrics (det : ConvergenceDetector) (plan : ResearchPlan)
    (hypotheses : List Hypothesis) (results : List ExperimentResult) (now : ℤ) :
    ConvergenceDetector :=
  let m := det.metrics
  let significant := results.countP (fun r => r.supports_hypothesis == some true)
  let nd := calculateNoveltyDecline hypotheses
  let m' : ConvergenceMetrics :=
    { m with
      discovery_rate := calculateDiscoveryRate results
      total_experiments := results.length
      significant_results := significant
      novelty_score := nd.1
      novelty_trend := m.novelty_trend ++ [nd.1]
      novelty_declining := nd.2
      saturation_ratio := plan.get_testability_rate
      hypotheses_tested := plan.tested_hypotheses.length
      total_hypotheses := plan.hypothesis_pool.length
      consistency_score := calculateConsistency results
      iteration_count := plan.iteration_count
      max_iterations := plan.max_iterations
      cost_per_discovery :=
        if 0 < significant then some (m.total_cost / (significant : ℚ)) else none
      last_update := now }
  { det with metrics := m' }

/-- The `for criterion in criteria: ... if decision.should_stop: return`
loops of `check_convergence` (convergence.py 237-248). -/
def firstStopping (det : ConvergenceDetector) (criteria : List String)
    (plan : ResearchPlan) (now : ℤ) (mandatory : Bool) : Option StoppingDecision :=
  match criteria with
  | [] => none
  | c :: rest =>
      let d := checkCriterion det c plan now mandatory
      if d.should_stop then some d else firstStopping det rest plan now mandatory

/-- The fall-through decision of `check_convergence` (convergence.py 251-257). -/
def noStopDecision (now : ℤ) : StoppingDecision :=
  { should_stop := false, reason := .user_requested, is_mandatory := false,
    confidence := 1, details := "No stopping criteria met, research continues",
    timestamp := now }

/-- `ConvergenceDetector.check_convergence` (convergence.py 214-257): update
the stored metrics, then scan mandatory criteria in list order, then
optional criteria in list order, returning the first stopping decision. -/
def checkConvergence (det : ConvergenceDetector) (plan : ResearchPlan)
    (hypotheses : List Hypothesis) (results : List ExperimentResult) (now : ℤ) :
    StoppingDecision × ConvergenceDetector :=
  let det' := updateMetrics det plan hypotheses results now
  let decision :=
    match firstStopping det' det'.mandatory_criteria plan now true with
    | some d => d
    | none =>
        match firstStopping det' det'.optional_criteria plan now false with
        | some d => d
        | none => noStopDecision now
  (decision, det')

/-- The decisions of the configured mandatory criteria, evaluated (in list
order) against the detector as updated by step 1 of `check_convergence`. -/
def mandatoryDecisions (det : ConvergenceDetector) (plan : ResearchPlan)
    (hypotheses : List Hypothesis) (results : List ExperimentResult) (now : ℤ) :
    List StoppingDecision :=
  det.mandatory_criteria.map (fun c =>
    checkCriterion (updateMetrics det plan hypotheses results now) c plan now true)

/-- The decisions of the configured optional criteria, evaluated (in list
order) against the detector as updated by step 1 of `check_convergence`. -/
def optionalDecisions (det : ConvergenceDetector) (plan : ResearchPlan)
    (hypotheses : List Hypothesis) (results : List ExperimentResult) (now : ℤ) :
    List StoppingDecision :=
  det.optional_criteria.map (fun c =>
    checkCriterion (updateMetrics det plan hypotheses results now) c plan now false)

/-! ## Concrete example inputs

Used by the concrete witnesses and counterexamples below. -/

/-- A fallback `SuccessPattern` for `Option.getD` on extraction results. -/
def dummySuccessPattern : SuccessPattern :=
  { pattern_id := "", description := "",
    hypothesis_characteristics :=
      { domain := "", testability_score := none, novelty_score := none },
    experiment_design := { test_type := "" },
    statistical_approach := { p_value := none, effect_size := none, effect_size_type := "" },
    occurrences := 0, success_rate := 0, confidence := 0, examples := [],
    created_at := 0, updated_at := 0 }

/-- A supporting, successful result with test `t_test` and effect size 0.5. -/
def rOk1 : ExperimentResult :=
  { id := "r1", status := .success, supports_hypothesis := some true,
    primary_test := "t_test", primary_p_value := some (1 / 100),
    primary_effect_size := some (1 / 2) }

/-- A second supporting, successful result with the same primary test. -/
def rOk2 : ExperimentResult := { rOk1 with id := "r2" }

/-- A supporting, successful result whose effect size is null, which makes
pattern extraction raise. -/
def rEffNone : ExperimentResult := { rOk1 with id := "r0", primary_effect_size := none }

/-- A hypothesis with confidence 0.5 and novelty 0.5. -/
def hypA : Hypothesis :=
  { id := "h1", statement := "X", domain := "biology",
    novelty_score := some (1 / 2), testability_score := some (7 / 10),
    confidence_score := some (1 / 2) }

/-- A hypothesis with confidence 0.9 (same id, for the clamping example). -/
def hypB : Hypothesis := { hypA with confidence_score := some (9 / 10) }

/-- A hypothesis with a different id. -/
def hypOther : Hypothesis := { hypA with id := "hz" }

/-- The result of processing `rOk1` from a fresh loop. -/
def c1Run : List FeedbackSignal × FeedbackLoop :=
  (processResultFeedback FeedbackLoop.init rOk1 hypA 0).toOption.getD
    ([], FeedbackLoop.init)

/-- The result of then processing `rOk2` (same primary test). -/
def c9Run2 : List FeedbackSignal × FeedbackLoop :=
  (processResultFeedback c1Run.2 rOk2 hypA 0).toOption.getD ([], FeedbackLoop.init)

/-- The pattern extracted from `rOk1`. -/
def patOk1 : SuccessPattern :=
  (extractSuccessPattern rOk1 hypA 0).toOption.getD dummySuccessPattern

/-- The pattern extracted from `rOk2`. -/
def patOk2 : SuccessPattern :=
  (extractSuccessPattern rOk2 hypA 0).toOption.getD dummySuccessPattern

/-- An `increase_confidence` hypothesis-update signal for `h1` with
update value 0.3. -/
def sigInc : FeedbackSignal :=
  { signal_type := .hypothesis_update, source := "r1",
    data := { SignalData.empty with
      hypothesis_id := some "h1", action := some "increase_confidence",
      update_value := some (3 / 10) },
    confidence := 1, timestamp := 0, applied := false }

/-- A fresh loop whose pending queue holds exactly `sigInc`. -/
def stPend : FeedbackLoop := { FeedbackLoop.init with pending_signals := [sigInc] }

/-- A `decrease_confidence` hypothesis-update signal for `h1` with
update value 0.4 (the default failure learning rate). -/
def sigDec : FeedbackSignal :=
  { signal_type := .hypothesis_update, source := "r1",
    data := { SignalData.empty with
      hypothesis_id := some "h1", action := some "decrease_confidence",
      update_value := some (4 / 10) },
    confidence := 1, timestamp := 0, applied := false }

/-- A hypothesis with confidence 0.3 (for the lower-clamp example). -/
def hypC : Hypothesis := { hypA with confidence_score := some (3 / 10) }

/-- A fresh loop whose pending queue holds exactly `sigDec`. -/
def stPendDec : FeedbackLoop :=
  { FeedbackLoop.init with pending_signals := [sigDec] }

/-- A default-configured detector created at time 0. -/
def detInit : ConvergenceDetector := ConvergenceDetector.init 0

/-- The default detector with the spec's example novelty trend
[0.8, 0.6, 0.4, 0.3, 0.2]. -/
def detTrend : ConvergenceDetector :=
  { detInit with metrics :=
      { detInit.metrics with novelty_trend := [4/5, 3/5, 2/5, 3/10, 1/5] } }

/-- The default detector with a one-element novelty trend. -/
def detTrendOne : ConvergenceDetector :=
  { detInit with metrics := { detInit.metrics with novelty_trend := [1] } }

/-- A plan with one untested hypothesis and one queued experiment. -/
def planQueue : ResearchPlan :=
  { research_question := "q", iteration_count := 0, max_iterations := 10,
    hypothesis_pool := ["h1"], tested_hypotheses := [],
    supported_hypotheses := [], rejected_hypotheses := [],
    experiment_queue := ["e1"], has_converged := false }

/-- A plan with no untested hypotheses and an empty experiment queue. -/
def planDone : ResearchPlan :=
  { planQueue with hypothesis_pool := [], experiment_queue := [] }

/-- The identity "hash", a concrete instantiation of the abstract md5
parameters. -/
def hashId : String → String := fun s => s

/-- A concrete experiment protocol. -/
def protoA : ExperimentProtocol :=
  { id := "p1", experiment_type := "simulation", methodology := "m1" }

/-- The store after recording hypothesis `hypA` with protocol `protoA`. -/
def msRec : MemoryStore :=
  (recordExperiment MemoryStore.init hashId hashId hypA (some protoA) 0).2

/-- A hypothesis with a different statement, never recorded. -/
def hypZ : Hypothesis := { hypA with statement := "Z" }

/-- An insight memory with the given id, importance, creation day, access
count and tags. -/
def memTag (i : String) (imp : ℚ) (cr : ℤ) (ac : ℕ) (tg : List String) : Memory :=
  { id := i, category := .insights, content := "c " ++ i, data := [],
    importance := imp, access_count := ac, created_at := cr,
    last_accessed := cr, tags := tg }

/-- A store with three insight memories of differing importance. -/
def msQuery : MemoryStore :=
  { MemoryStore.init with memories := fun c =>
      if c = .insights then
        [memTag "a" (1/2) 0 0 ["x"], memTag "b" (9/10) 0 0 ["y"],
         memTag "cc" (4/5) 0 0 ["x"]]
      else [] }

/-- An insight memory with importance 1, matching the query floor. -/
def memKeep : Memory := memTag "keep" 1 0 0 []

/-- An insight memory with importance 0, filtered out by the query floor. -/
def memLow : Memory := memTag "low" 0 0 0 []

/-- A store with insights [memKeep, memLow] and one general memory. -/
def msW8 : MemoryStore :=
  { MemoryStore.init with memories := fun c =>
      if c = .insights then [memKeep, memLow]
      else if c = .general then [{ memTag "g" 1 0 0 [] with category := .general }]
      else [] }

/-- A 40-day-old, never-accessed memory with importance 0.95. -/
def memOldHigh : Memory := memTag "oh" (19/20) (-40) 0 []

/-- A 40-day-old, never-accessed memory with importance 0.1. -/
def memOldLow : Memory := memTag "ol" (1/10) (-40) 0 []

/-- A 40-day-old, low-importance memory in the general category. -/
def memGen : Memory := { memTag "g" (1/10) (-40) 0 [] with category := .general }

/-- A store holding `memOldHigh` and `memOldLow` under insights and
`memGen` under general. -/
def msPrune : MemoryStore :=
  { MemoryStore.init with memories := fun c =>
      if c = .insights then [memOldHigh, memOldLow]
      else if c = .general then [memGen]
      else [] }

/-! ## Shared lemmas -/

/-- The Boolean pairwise non-increasing scan agrees with `List.Chain'`. -/
theorem nonincreasingQ_iff (l : List ℚ) :
    nonincreasingQ l = true ↔ List.Chain' (fun a b => b ≤ a) l := by
  induction l with
  | nil => simp [show nonincreasingQ [] = true from rfl]
  | cons a rest ih =>
      cases rest with
      | nil => simp [show nonincreasingQ [a] = true from rfl]
      | cons b t =>
          rw [show nonincreasingQ (a :: b :: t) =
              (decide (b ≤ a) && nonincreasingQ (b :: t)) from rfl]
          rw [List.chain'_cons]
          simp [ih]

/-- `find?` returns the first element satisfying the predicate. -/
theorem find?_eq_get_of_first {α : Type} (p : α → Bool) (l : List α) (i : ℕ)
    (hi : i < l.length) (hp : p (l.get ⟨i, hi⟩) = true)
    (hmin : ∀ j (hj : j < i), p (l.get ⟨j, hj.trans hi⟩) = false) :
    l.find? p = some (l.get ⟨i, hi⟩) := by
  induction l generalizing i with
  | nil => exact absurd hi (Nat.not_lt_zero i)
  | cons a t ih =>
      cases i with
      | zero => exact List.find?_cons_of_pos _ hp
      | succ n =>
          have ha : p a = false := hmin 0 (Nat.succ_pos n)
          rw [List.find?_cons_of_neg _ (by simp [ha])]
          exact ih n (Nat.lt_of_succ_lt_succ hi) hp
            (fun j hj => hmin (j + 1) (Nat.succ_lt_succ hj))

/-- Inserting under key `k` leaves the dict with an entry keyed `k`. -/
theorem dictInsert_any_key {α : Type} (m : List (String × α)) (k : String) (v : α) :
    (dictInsert m k v).any (fun e => e.1 == k) = true := by
  unfold dictInsert
  split
  · rename_i h
    rw [List.any_map, List.any_eq_true] at *
    obtain ⟨e, he, hk⟩ := h
    refine ⟨e, he, ?_⟩
    simp only [Function.comp]
    rw [if_pos hk]
    simp
  · simp

/-- Overwriting under a key absent from the dict changes nothing. -/
theorem map_keyfree {α : Type} (m : List (String × α)) (k : String) (v : String × α)
    (h : ∀ e ∈ m, e.1 ≠ k) : m.map (fun e => if e.1 == k then v else e) = m := by
  calc m.map (fun e => if e.1 == k then v else e) = m.map id := by
        refine List.map_congr_left (fun e he => ?_)
        rw [if_neg (by simpa using h e he)]
        rfl
    _ = m := List.map_id m

/-- Inserting a key absent from the dict appends the new entry. -/
theorem dictInsert_of_fresh {α : Type} (m : List (String × α)) (k : String) (v : α)
    (h : ∀ e ∈ m, e.1 ≠ k) : dictInsert m k v = m ++ [(k, v)] := by
  have hc : ¬ m.any (fun e => e.1 == k) = true := by
    rw [List.any_eq_true]
    rintro ⟨e, he, hk⟩
    exact h e he (by simpa using hk)
  unfold dictInsert
  rw [if_neg hc]

/-! ## C4: novelty-decline criterion -/

/-- C4: with window `W` and threshold `T`, `check_novelty_decline` never
stops on fewer than `W` trend points (confidence 0); otherwise it stops
exactly when all of the last `W` values are below `T` or the last `W`
values are monotonically non-increasing, with confidence 0.8 when stopping
and 0.2 otherwise. -/
theorem checkNoveltyDecline_spec (det : ConvergenceDetector) (now : ℤ) :
    (det.metrics.novelty_trend.length < det.novelty_decline_window →
      (checkNoveltyDecline det now).should_stop = false ∧
      (checkNoveltyDecline det now).confidence = 0) ∧
    (det.novelty_decline_window ≤ det.metrics.novelty_trend.length →
      ((checkNoveltyDecline det now).should_stop = true ↔
        (∀ v ∈ det.metrics.novelty_trend.drop
            (det.metrics.novelty_trend.length - det.novelty_decline_window),
          v < det.novelty_decline_threshold) ∨
        List.Chain' (fun a b => b ≤ a)
          (det.metrics.novelty_trend.drop
            (det.metrics.novelty_trend.length - det.novelty_decline_window))) ∧
      (checkNoveltyDecline det now).confidence =
        (if (checkNoveltyDecline det now).should_stop then (4 : ℚ)/5 else 1/5)) := by
  constructor
  · intro h
    simp [checkNoveltyDecline, h]
  · intro h
    have hnot : ¬ det.metrics.novelty_trend.length < det.novelty_decline_window :=
      not_lt.mpr h
    simp only [checkNoveltyDecline, if_neg hnot]
    refine ⟨?_, ?_⟩
    · simp [List.all_eq_true, nonincreasingQ_iff]
    · trivial

/-- C4 witness: on the trend [0.8, 0.6, 0.4, 0.3, 0.2] with the default
window 5 and threshold 0.3, the criterion fires (monotonic decline) with
confidence 0.8 even though not all values are below the threshold. -/
theorem checkNoveltyDecline_spec_witness :
    (checkNoveltyDecline detTrend 0).should_stop = true ∧
    (checkNoveltyDecline detTrend 0).confidence = 4/5 ∧
    ¬ (∀ v ∈ detTrend.metrics.novelty_trend, v < detTrend.novelty_decline_threshold) := by
  have h := (checkNoveltyDecline_spec detTrend 0).2 (by decide)
  have hstop : (checkNoveltyDecline detTrend 0).should_stop = true := by
    refine h.1.mpr (Or.inr ?_)
    norm_num [detTrend, detInit, ConvergenceDetector.init, ConvergenceMetrics.init,
      List.chain'_cons]
  refine ⟨hstop, ?_, ?_⟩
  · rw [h.2, hstop]
    simp
  · intro hall
    have := hall (4/5) (by
      norm_num [detTrend, detInit, ConvergenceDetector.init, ConvergenceMetrics.init])
    norm_num [detTrend, detInit, ConvergenceDetector.init, ConvergenceMetrics.init] at this

/-! ## C10: pruning -/

/-- C10: `_prune_category` retains a memory iff its importance is at least
`min_importance_to_keep`, or its creation lies within `prune_after_days` of
now, or it was ever accessed; it is a pure filter on that category's list
and leaves every other category untouched. -/
theorem pruneCategory_spec (st : MemoryStore) (category : MemoryCategory) (now : ℤ) :
    (∀ m : Memory,
      m ∈ (pruneCategory st category now).memories category ↔
        m ∈ st.memories category ∧
          (st.min_importance_to_keep ≤ m.importance ∨
           now - st.prune_after_days < m.created_at ∨
           0 < m.access_count)) ∧
    (∀ c : MemoryCategory, c ≠ category →
      (pruneCategory st category now).memories c = st.memories c) := by
  constructor
  · intro m
    simp [pruneCategory, List.mem_filter, pruneKeep, or_assoc]
  · intro c hc
    simp [pruneCategory, hc]

/-- C10 witness: with the default configuration, a 40-day-old never-accessed
memory with importance 0.95 survives pruning of its category, one with
importance 0.1 is pruned, and the other category's list is untouched. -/
theorem pruneCategory_spec_witness :
    memOldHigh ∈ (pruneCategory msPrune .insights 0).memories .insights ∧
    memOldLow ∉ (pruneCategory msPrune .insights 0).memories .insights ∧
    (pruneCategory msPrune .insights 0).memories .general = msPrune.memories .general := by
  have h := pruneCategory_spec msPrune .insights 0
  refine ⟨(h.1 memOldHigh).mpr ⟨by simp [msPrune], Or.inl (by
      norm_num [msPrune, MemoryStore.init, memOldHigh, memTag])⟩,
    ?_, h.2 .general (by decide)⟩
  intro hmem
  rcases ((h.1 memOldLow).mp hmem).2 with h1 | h2 | h3
  · revert h1; norm_num [msPrune, MemoryStore.init, memOldLow, memTag]
  · revert h2; norm_num [msPrune, MemoryStore.init, memOldLow, memTag]
  · revert h3; norm_num [memOldLow, memTag]

/-! ## C7: experiment deduplication -/

/-- C7: `is_duplicate_experiment` reports an exact duplicate exactly when
the combined hypothesis+protocol hash is already recorded (in particular
directly after `record_experiment` on the same pair); otherwise, when N ≥ 1
stored signatures share the hypothesis-only hash regardless of protocol, it
reports "Similar hypothesis tested N time(s)"; otherwise it returns
(false, none). -/
theorem isDuplicateExperiment_spec (h16 h32 : String → String) (st : MemoryStore)
    (hypothesis : Hypothesis) (protocol : Option ExperimentProtocol) (now : ℤ) :
    (st.experiment_signatures.any
        (fun e => e.1 == h32 (h16 hypothesis.statement ++ ":" ++
          protocolHashOf h16 protocol)) = true →
      isDuplicateExperiment st h16 h32 hypothesis protocol =
        (true, some "Exact duplicate (same hypothesis + same protocol)")) ∧
    (isDuplicateExperiment (recordExperiment st h16 h32 hypothesis protocol now).2
        h16 h32 hypothesis protocol =
      (true, some "Exact duplicate (same hypothesis + same protocol)")) ∧
    (st.experiment_signatures.any
        (fun e => e.1 == h32 (h16 hypothesis.statement ++ ":" ++
          protocolHashOf h16 protocol)) = false →
      (0 < st.experiment_signatures.countP
          (fun e => e.2.hypothesis_hash == h16 hypothesis.statement) →
        isDuplicateExperiment st h16 h32 hypothesis protocol =
          (true, some ("Similar hypothesis tested " ++
            toString (st.experiment_signatures.countP
              (fun e => e.2.hypothesis_hash == h16 hypothesis.statement)) ++
            " time(s)"))) ∧
      (st.experiment_signatures.countP
          (fun e => e.2.hypothesis_hash == h16 hypothesis.statement) = 0 →
        isDuplicateExperiment st h16 h32 hypothesis protocol = (false, none))) := by
  refine ⟨?_, ?_, ?_⟩
  · intro hany
    simp only [isDuplicateExperiment, hany, if_pos]
  · have hany := dictInsert_any_key st.experiment_signatures
      (h32 (h16 hypothesis.statement ++ ":" ++ protocolHashOf h16 protocol))
    simp only [isDuplicateExperiment, recordExperiment]
    rw [if_pos (hany _)]
  · intro hany
    constructor
    · intro hn
      simp only [isDuplicateExperiment, hany, Bool.false_eq_true, if_false, if_pos hn]
    · intro hn
      simp only [isDuplicateExperiment, hany, Bool.false_eq_true, if_false, hn]
      simp

/-- C7 witness: after recording statement "X" with protocol `protoA` under
the identity hash, checking the identical pair reports an exact duplicate,
checking "X" with no protocol reports one similar hypothesis, and a
never-recorded statement is not a duplicate. -/
theorem isDuplicateExperiment_spec_witness :
    isDuplicateExperiment msRec hashId hashId hypA (some protoA) =
      (true, some "Exact duplicate (same hypothesis + same protocol)") ∧
    isDuplicateExperiment msRec hashId hashId hypA none =
      (true, some "Similar hypothesis tested 1 time(s)") ∧
    isDuplicateExperiment msRec hashId hashId hypZ none = (false, none) := by
  refine ⟨(isDuplicateExperiment_spec hashId hashId MemoryStore.init hypA
      (some protoA) 0).2.1, ?_, ?_⟩
  · exact ((isDuplicateExperiment_spec hashId hashId msRec hypA none 0).2.2
      (by decide)).1 (by decide)
  · exact ((isDuplicateExperiment_spec hashId hashId msRec hypZ none 0).2.2
      (by decide)).2 (by decide)

/-! ## C2: metric recomputation -/

/-- C2 counterexample: two `check_convergence` calls on the same detector
with identical inputs do not leave identical metrics — the novelty trend is
appended to, not overwritten, so it grows by one element per call. -/
theorem checkConvergence_metrics_counterexample :
    ((checkConvergence detInit planQueue [hypA] [] 0).2.metrics.novelty_trend.length = 1) ∧
    ((checkConvergence (checkConvergence detInit planQueue [hypA] [] 0).2
        planQueue [hypA] [] 0).2.metrics.novelty_trend.length = 2) ∧
    (checkConvergence (checkConvergence detInit planQueue [hypA] [] 0).2
        planQueue [hypA] [] 0).2.metrics ≠
      (checkConvergence detInit planQueue [hypA] [] 0).2.metrics := by
  refine ⟨rfl, rfl, ?_⟩
  intro h
  have hlen := congrArg (fun m : ConvergenceMetrics => m.novelty_trend.length) h
  exact absurd hlen (by decide)

/-- C2 amended: step 1 of `check_convergence` recomputes every scalar
metric as a pure function of the three inputs, but `novelty_trend` is
appended to (one value per call) rather than overwritten, and `total_cost`
and `start_time` carry over from the previous state (`cost_per_discovery`
is derived from the carried-over cost). -/
theorem updateMetrics_amended (det1 det2 : ConvergenceDetector)
    (plan : ResearchPlan) (hypotheses : List Hypothesis)
    (results : List ExperimentResult) (now : ℤ)
    (hcost : det1.metrics.total_cost = det2.metrics.total_cost) :
    ((updateMetrics det1 plan hypotheses results now).metrics.novelty_trend =
      det1.metrics.novelty_trend ++ [(calculateNoveltyDecline hypotheses).1]) ∧
    ((updateMetrics det1 plan hypotheses results now).metrics.start_time =
      det1.metrics.start_time) ∧
    ((updateMetrics det1 plan hypotheses results now).metrics.total_cost =
      det1.metrics.total_cost) ∧
    ((updateMetrics det1 plan hypotheses results now).metrics.discovery_rate =
      (updateMetrics det2 plan hypotheses results now).metrics.discovery_rate) ∧
    ((updateMetrics det1 plan hypotheses results now).metrics.total_experiments =
      (updateMetrics det2 plan hypotheses results now).metrics.total_experiments) ∧
    ((updateMetrics det1 plan hypotheses results now).metrics.significant_results =
      (updateMetrics det2 plan hypotheses results now).metrics.significant_results) ∧
    ((updateMetrics det1 plan hypotheses results now).metrics.novelty_score =
      (updateMetrics det2 plan hypotheses results now).metrics.novelty_score) ∧
    ((updateMetrics det1 plan hypotheses results now).metrics.novelty_declining =
      (updateMetrics det2 plan hypotheses results now).metrics.novelty_declining) ∧
    ((updateMetrics det1 plan hypotheses results now).metrics.saturation_ratio =
      (updateMetrics det2 plan hypotheses results now).metrics.saturation_ratio) ∧
    ((updateMetrics det1 plan hypotheses results now).metrics.hypotheses_tested =
      (updateMetrics det2 plan hypotheses results now).metrics.hypotheses_tested) ∧
    ((updateMetrics det1 plan hypotheses results now).metrics.total_hypotheses =
      (updateMetrics det2 plan hypotheses results now).metrics.total_hypotheses) ∧
    ((updateMetrics det1 plan hypotheses results now).metrics.consistency_score =
      (updateMetrics det2 plan hypotheses results now).metrics.consistency_score) ∧
    ((updateMetrics det1 plan hypotheses results now).metrics.iteration_count =
      (updateMetrics det2 plan hypotheses results now).metrics.iteration_count) ∧
    ((updateMetrics det1 plan hypotheses results now).metrics.max_iterations =
      (updateMetrics det2 plan hypotheses results now).metrics.max_iterations) ∧
    ((updateMetrics det1 plan hypotheses results now).metrics.cost_per_discovery =
      (updateMetrics det2 plan hypotheses results now).metrics.cost_per_discovery) ∧
    ((updateMetrics det1 plan hypotheses results now).metrics.last_update =
      (updateMetrics det2 plan hypotheses results now).metrics.last_update) := by
  refine ⟨rfl, rfl, rfl, rfl, rfl, rfl, rfl, rfl, rfl, rfl, rfl, rfl, rfl, rfl, ?_, rfl⟩
  simp only [updateMetrics, hcost]

/-- C2 amended witness: on concrete inputs the updated trend is the old
trend extended by the current novelty, and two detectors with equal carried
cost but different histories agree on every recomputed scalar metric. -/
theorem updateMetrics_amended_witness :
    ((updateMetrics detInit planQueue [hypA] [] 0).metrics.novelty_trend =
      detInit.metrics.novelty_trend ++ [(calculateNoveltyDecline [hypA]).1]) ∧
    ((updateMetrics detInit planQueue [hypA] [] 0).metrics.discovery_rate =
      (updateMetrics detTrendOne planQueue [hypA] [] 0).metrics.discovery_rate) :=
  ⟨(updateMetrics_amended detInit detTrendOne planQueue [hypA] [] 0 rfl).1,
   (updateMetrics_amended detInit detTrendOne planQueue [hypA] [] 0 rfl).2.2.2.1⟩

/-! ## C6: signal queue discipline -/

/-- C6 counterexample: `apply_feedback` never consults the `applied` flag.
Re-applying the already-applied signal appends a second copy to the applied
queue and moves the hypothesis confidence a second time (0.8 to 1.0)
instead of being rejected. -/
theorem applyFeedback_reapply_counterexample :
    ((applyFeedback stPend sigInc [hypA]).2.2.applied_signals =
      [{ sigInc with applied := true }]) ∧
    ((applyFeedback (applyFeedback stPend sigInc [hypA]).2.2
        { sigInc with applied := true }
        (applyFeedback stPend sigInc [hypA]).2.1).2.2.applied_signals =
      [{ sigInc with applied := true }, { sigInc with applied := true }]) ∧
    ((applyFeedback stPend sigInc [hypA]).2.1.map (fun h => h.confidence_score) =
      [some (4/5)]) ∧
    ((applyFeedback (applyFeedback stPend sigInc [hypA]).2.2
        { sigInc with applied := true }
        (applyFeedback stPend sigInc [hypA]).2.1).2.1.map
        (fun h => h.confidence_score) = [some 1]) ∧
    (4/5 : ℚ) ≠ 1 := by
  have e1 : (applyFeedback stPend sigInc [hypA]).2.1 =
      [{ hypA with confidence_score := some (4/5) }] := by
    simp only [applyFeedback, sigInc, SignalData.empty, hypA, stPend]
    norm_num [List.find?, setFirstConfidence, pyOrHalf, min_def]
  have e2 : (applyFeedback (applyFeedback stPend sigInc [hypA]).2.2
      { sigInc with applied := true }
      (applyFeedback stPend sigInc [hypA]).2.1).2.1 =
      [{ hypA with confidence_score := some 1 }] := by
    rw [e1]
    simp only [applyFeedback, sigInc, SignalData.empty, hypA]
    norm_num [List.find?, setFirstConfidence, pyOrHalf, min_def]
  refine ⟨rfl, rfl, ?_, ?_, by norm_num⟩
  · rw [e1]; rfl
  · rw [e2]; rfl

/-- C6 amended: `apply_feedback` unconditionally marks the signal applied,
appends it to the applied queue and removes one matching entry from the
pending queue; a signal pending exactly once is thereby moved from pending
to applied, but an already-applied signal is not rejected — re-application
appends a duplicate (see the counterexample). -/
theorem applyFeedback_queue_discipline (st : FeedbackLoop) (signal : FeedbackSignal)
    (hyps : List Hypothesis) :
    ((applyFeedback st signal hyps).2.2.applied_signals =
      st.applied_signals ++ [{ signal with applied := true }]) ∧
    ((applyFeedback st signal hyps).2.2.pending_signals =
      st.pending_signals.erase signal) ∧
    (st.pending_signals.count signal = 1 →
      (applyFeedback st signal hyps).2.2.pending_signals.count signal = 0) := by
  refine ⟨rfl, rfl, ?_⟩
  intro h1
  show (st.pending_signals.erase signal).count signal = 0
  rw [List.count_erase_self, h1]

/-- C6 amended witness: applying the single pending signal of a fresh loop
leaves it pending zero times and applied once. -/
theorem applyFeedback_queue_discipline_witness :
    (applyFeedback stPend sigInc [hypA]).2.2.pending_signals.count sigInc = 0 ∧
    (applyFeedback stPend sigInc [hypA]).2.2.applied_signals =
      [{ sigInc with applied := true }] := by
  refine ⟨(applyFeedback_queue_discipline stPend sigInc [hypA]).2.2 ?_, rfl⟩
  show List.count sigInc [sigInc] = 1
  simp

/-! ## C1: exception behaviour of result processing -/

/-- `_analyze_success` on a non-raising run emits only `success_pattern`
signals and leaves the signal queues untouched. -/
theorem analyzeSuccess_ok (st : FeedbackLoop) (r : ExperimentResult)
    (h : Hypothesis) (now : ℤ) (sigs : List FeedbackSignal) (st' : FeedbackLoop)
    (hok : analyzeSuccess st r h now = .ok (sigs, st')) :
    (∀ s ∈ sigs, s.signal_type = .success_pattern) ∧
    st'.pending_signals = st.pending_signals := by
  unfold analyzeSuccess at hok
  cases hes : extractSuccessPattern r h now with
  | error e =>
      rw [hes] at hok
      exact absurd hok (by simp)
  | ok pattern =>
      rw [hes] at hok
      dsimp only at hok
      cases hfind : findSimilarSuccessPattern st pattern with
      | some ke =>
          obtain ⟨key, existing⟩ := ke
          rw [hfind] at hok
          simp only [Except.ok.injEq, Prod.mk.injEq] at hok
          obtain ⟨hsig, hst⟩ := hok
          subst hsig; subst hst
          exact ⟨fun s hs => by
            simp only [List.mem_singleton] at hs
            simp [hs, mkSuccessSignal], rfl⟩
      | none =>
          rw [hfind] at hok
          simp only [Except.ok.injEq, Prod.mk.injEq] at hok
          obtain ⟨hsig, hst⟩ := hok
          subst hsig; subst hst
          exact ⟨fun s hs => by
            simp only [List.mem_singleton] at hs
            simp [hs, mkSuccessSignal], rfl⟩

/-- `_analyze_failure` emits only `failure_pattern` signals and leaves the
signal queues untouched. -/
theorem analyzeFailure_spec (st : FeedbackLoop) (r : ExperimentResult)
    (h : Hypothesis) (now : ℤ) :
    (∀ s ∈ (analyzeFailure st r h now).1, s.signal_type = .failure_pattern) ∧
    (analyzeFailure st r h now).2.pending_signals = st.pending_signals := by
  unfold analyzeFailure
  dsimp only
  cases hfind : findSimilarFailurePattern st
      (extractFailurePattern r h (categorizeFailure r) now) with
  | some ke =>
      obtain ⟨key, existing⟩ := ke
      exact ⟨fun s hs => by
        simp only [List.mem_singleton] at hs
        simp [hs, mkFailureSignal], rfl⟩
  | none =>
      exact ⟨fun s hs => by
        simp only [List.mem_singleton] at hs
        simp [hs, mkFailureSignal], rfl⟩

/-- C1 counterexample: on a supporting, successful result whose effect size
is null, the `:.2f` interpolation inside `_extract_success_pattern` raises
and nothing catches it — `process_result_feedback` propagates the exception
instead of returning a signal list with a hypothesis-update signal. -/
theorem processResultFeedback_exception_counterexample :
    processResultFeedback FeedbackLoop.init rEffNone hypA 0 =
      .error "TypeError: unsupported format string passed to NoneType.__format__" :=
  rfl

/-- C1 amended: an exception during pattern extraction is not caught: it
propagates out of `process_result_feedback` (no signals returned, pending
queue untouched). On every non-raising run the returned list contains
exactly one hypothesis-update signal and the full list is appended to the
pending queue. -/
theorem processResultFeedback_ok_spec (st : FeedbackLoop)
    (result : ExperimentResult) (hypothesis : Hypothesis) (now : ℤ)
    (signals : List FeedbackSignal) (st' : FeedbackLoop)
    (hok : processResultFeedback st result hypothesis now = .ok (signals, st')) :
    signals.countP (fun s => s.signal_type == .hypothesis_update) = 1 ∧
    st'.pending_signals = st.pending_signals ++ signals := by
  have hcount : ∀ (sigs0 : List FeedbackSignal) (st0 : FeedbackLoop),
      (∀ s ∈ sigs0, s.signal_type ≠ .hypothesis_update) →
      (sigs0 ++ [generateHypothesisUpdateSignal st0 result hypothesis now]).countP
        (fun s => s.signal_type == .hypothesis_update) = 1 := by
    intro sigs0 st0 hns
    rw [List.countP_append]
    have h0 : sigs0.countP (fun s => s.signal_type == .hypothesis_update) = 0 :=
      List.countP_eq_zero.mpr (fun s hs => by simp [hns s hs])
    rw [h0]
    simp [generateHypothesisUpdateSignal, List.countP_cons]
  unfold processResultFeedback at hok
  by_cases h1 : (result.supports_hypothesis == some true &&
      result.status == ResultStatus.success) = true
  · rw [if_pos h1] at hok
    cases ha : analyzeSuccess st result hypothesis now with
    | error e =>
        rw [ha] at hok
        exact absurd hok (by simp)
    | ok p =>
        obtain ⟨sigs0, st0⟩ := p
        rw [ha] at hok
        simp only [Except.ok.injEq, Prod.mk.injEq] at hok
        obtain ⟨hsig, hst⟩ := hok
        subst hsig
        subst hst
        have hA := analyzeSuccess_ok st result hypothesis now sigs0 st0 ha
        refine ⟨hcount sigs0 st0 (fun s hs => by rw [hA.1 s hs]; decide), ?_⟩
        show st0.pending_signals ++ _ = st.pending_signals ++ _
        rw [hA.2]
  · rw [if_neg h1] at hok
    by_cases h2 : (result.supports_hypothesis == some false ||
        result.status == ResultStatus.failure) = true
    · rw [if_pos h2] at hok
      rcases hfa : analyzeFailure st result hypothesis now with ⟨sigs0, st0⟩
      rw [hfa] at hok
      simp only [Except.ok.injEq, Prod.mk.injEq] at hok
      obtain ⟨hsig, hst⟩ := hok
      subst hsig
      subst hst
      have hF := analyzeFailure_spec st result hypothesis now
      rw [hfa] at hF
      refine ⟨hcount sigs0 st0 (fun s hs => by rw [hF.1 s hs]; decide), ?_⟩
      show st0.pending_signals ++ _ = st.pending_signals ++ _
      rw [hF.2]
    · rw [if_neg h2] at hok
      simp only [Except.ok.injEq, Prod.mk.injEq] at hok
      obtain ⟨hsig, hst⟩ := hok
      subst hsig
      subst hst
      exact ⟨hcount [] st (fun s hs => absurd hs (List.not_mem_nil s)), rfl⟩

/-- C1 amended witness: processing a well-formed supporting success from a
fresh loop yields exactly one hypothesis-update signal, all appended to the
pending queue. -/
theorem processResultFeedback_ok_spec_witness :
    c1Run.1.countP (fun s => s.signal_type == .hypothesis_update) = 1 ∧
    c1Run.2.pending_signals = FeedbackLoop.init.pending_signals ++ c1Run.1 :=
  processResultFeedback_ok_spec FeedbackLoop.init rOk1 hypA 0 c1Run.1 c1Run.2 rfl

/-! ## C5: applying a hypothesis-update signal -/

/-- C5: for every hypothesis-update signal targeting id `hid`,
`apply_feedback` is a no-op on the hypothesis list when the id is absent
(reported only through the empty changes structure); when present, an
`increase_confidence` signal sets the first matching hypothesis's
confidence to `min 1 (old + v)` and a `decrease_confidence` signal to
`max 0 (old - v)` — clamped to [0, 1] for well-formed inputs — and any
other action leaves the list untouched; in every case the signal is marked
applied, appended to the applied queue and erased from the pending queue. -/
theorem applyFeedback_hypothesis_update_spec (st : FeedbackLoop)
    (signal : FeedbackSignal) (hypotheses : List Hypothesis) (hid : String)
    (hty : signal.signal_type = .hypothesis_update)
    (hhid : signal.data.hypothesis_id = some hid) :
    ((∀ h ∈ hypotheses, h.id ≠ hid) →
      (applyFeedback st signal hypotheses).2.1 = hypotheses ∧
      (applyFeedback st signal hypotheses).1.hypotheses_updated = []) ∧
    (∀ h0, hypotheses.find? (fun h => h.id == hid) = some h0 →
      (signal.data.action = some "increase_confidence" →
        (applyFeedback st signal hypotheses).2.1 =
          setFirstConfidence hypotheses hid
            (min 1 (pyOrHalf h0.confidence_score +
              signal.data.update_value.getD 0)) ∧
        min 1 (pyOrHalf h0.confidence_score + signal.data.update_value.getD 0)
            ≤ 1 ∧
        (0 ≤ signal.data.update_value.getD 0 →
          0 ≤ pyOrHalf h0.confidence_score →
          0 ≤ min 1 (pyOrHalf h0.confidence_score +
            signal.data.update_value.getD 0)) ∧
        (applyFeedback st signal hypotheses).1.hypotheses_updated = [hid]) ∧
      (signal.data.action = some "decrease_confidence" →
        (applyFeedback st signal hypotheses).2.1 =
          setFirstConfidence hypotheses hid
            (max 0 (pyOrHalf h0.confidence_score -
              signal.data.update_value.getD 0)) ∧
        0 ≤ max 0 (pyOrHalf h0.confidence_score -
          signal.data.update_value.getD 0) ∧
        (0 ≤ signal.data.update_value.getD 0 →
          pyOrHalf h0.confidence_score ≤ 1 →
          max 0 (pyOrHalf h0.confidence_score -
            signal.data.update_value.getD 0) ≤ 1) ∧
        (applyFeedback st signal hypotheses).1.hypotheses_updated = [hid]) ∧
      (signal.data.action ≠ some "increase_confidence" →
        signal.data.action ≠ some "decrease_confidence" →
        (applyFeedback st signal hypotheses).2.1 = hypotheses ∧
        (applyFeedback st signal hypotheses).1.hypotheses_updated = [])) ∧
    ({ signal with applied := true } ∈
      (applyFeedback st signal hypotheses).2.2.applied_signals) ∧
    ((applyFeedback st signal hypotheses).2.2.pending_signals =
      st.pending_signals.erase signal) := by
  refine ⟨?_, ?_, ?_, rfl⟩
  · intro habs
    have hfind : hypotheses.find? (fun h => h.id == hid) = none :=
      List.find?_eq_none.mpr (fun h hm => by simpa using habs h hm)
    constructor <;>
      simp [applyFeedback, hty, hhid, hfind, Changes.empty]
  · intro h0 hfind
    refine ⟨?_, ?_, ?_⟩
    · intro hact
      refine ⟨?_, min_le_left 1 _, ?_, ?_⟩
      · simp [applyFeedback, hty, hhid, hact, hfind]
      · intro hv h0c
        exact le_min zero_le_one (add_nonneg h0c hv)
      · simp [applyFeedback, hty, hhid, hact, hfind]
    · intro hact
      refine ⟨?_, le_max_left 0 _, ?_, ?_⟩
      · simp [applyFeedback, hty, hhid, hact, hfind]
      · intro hv h0c
        exact max_le zero_le_one ((sub_le_self _ hv).trans h0c)
      · simp [applyFeedback, hty, hhid, hact, hfind]
    · intro hne1 hne2
      constructor <;>
        simp [applyFeedback, hty, hhid, hfind, hne1, hne2, Changes.empty]
  · simp [applyFeedback]

/-- C5 witness: with update value 0.3, an increase takes confidence 0.5 to
0.8 and clamps 0.9 to exactly 1; with update value 0.4, a decrease takes
0.5 to 0.1 and clamps 0.3 to exactly 0; an absent id leaves the list
unchanged for both actions; both signals move from pending to applied. -/
theorem applyFeedback_hypothesis_update_spec_witness :
    (applyFeedback FeedbackLoop.init sigInc [hypA]).2.1 =
      [{ hypA with confidence_score := some (4/5) }] ∧
    (applyFeedback FeedbackLoop.init sigInc [hypB]).2.1 =
      [{ hypB with confidence_score := some 1 }] ∧
    (applyFeedback FeedbackLoop.init sigDec [hypA]).2.1 =
      [{ hypA with confidence_score := some (1/10) }] ∧
    (applyFeedback FeedbackLoop.init sigDec [hypC]).2.1 =
      [{ hypC with confidence_score := some 0 }] ∧
    (applyFeedback FeedbackLoop.init sigInc [hypOther]).2.1 = [hypOther] ∧
    (applyFeedback FeedbackLoop.init sigDec [hypOther]).2.1 = [hypOther] ∧
    (applyFeedback stPend sigInc [hypA]).2.2.pending_signals = [] ∧
    { sigInc with applied := true } ∈
      (applyFeedback stPend sigInc [hypA]).2.2.applied_signals ∧
    (applyFeedback stPendDec sigDec [hypA]).2.2.pending_signals = [] ∧
    { sigDec with applied := true } ∈
      (applyFeedback stPendDec sigDec [hypA]).2.2.applied_signals := by
  have T0 := applyFeedback_hypothesis_update_spec FeedbackLoop.init sigInc [hypA]
    "h1" rfl rfl
  have T1 := applyFeedback_hypothesis_update_spec FeedbackLoop.init sigInc [hypB]
    "h1" rfl rfl
  have T2 := applyFeedback_hypothesis_update_spec FeedbackLoop.init sigDec [hypA]
    "h1" rfl rfl
  have T3 := applyFeedback_hypothesis_update_spec FeedbackLoop.init sigDec [hypC]
    "h1" rfl rfl
  have T4 := applyFeedback_hypothesis_update_spec FeedbackLoop.init sigInc
    [hypOther] "h1" rfl rfl
  have T5 := applyFeedback_hypothesis_update_spec FeedbackLoop.init sigDec
    [hypOther] "h1" rfl rfl
  have T6 := applyFeedback_hypothesis_update_spec stPend sigInc [hypA] "h1" rfl rfl
  have T7 := applyFeedback_hypothesis_update_spec stPendDec sigDec [hypA]
    "h1" rfl rfl
  refine ⟨?_, ?_, ?_, ?_, (T4.1 (by decide)).1, (T5.1 (by decide)).1, ?_,
    T6.2.2.1, ?_, T7.2.2.1⟩
  · rw [((T0.2.1 hypA rfl).1 rfl).1]
    simp only [setFirstConfidence, hypA, pyOrHalf, sigInc, SignalData.empty,
      Option.getD]
    norm_num [min_def]
  · rw [((T1.2.1 hypB rfl).1 rfl).1]
    simp only [setFirstConfidence, hypB, hypA, pyOrHalf, sigInc, SignalData.empty,
      Option.getD]
    norm_num [min_def]
  · rw [((T2.2.1 hypA rfl).2.1 rfl).1]
    simp only [setFirstConfidence, hypA, pyOrHalf, sigDec, SignalData.empty,
      Option.getD]
    norm_num [max_def]
  · rw [((T3.2.1 hypC rfl).2.1 rfl).1]
    simp only [setFirstConfidence, hypC, hypA, pyOrHalf, sigDec, SignalData.empty,
      Option.getD]
    norm_num [max_def]
  · rw [T6.2.2.2]
    show List.erase [sigInc] sigInc = []
    simp
  · rw [T7.2.2.2]
    show List.erase [sigDec] sigDec = []
    simp

/-! ## C3: criterion evaluation order -/

/-- The criterion loops of `check_convergence` return the first decision in
list order whose `should_stop` is set. -/
theorem firstStopping_eq_find (det : ConvergenceDetector) (criteria : List String)
    (plan : ResearchPlan) (now : ℤ) (b : Bool) :
    firstStopping det criteria plan now b =
      (criteria.map (fun c => checkCriterion det c plan now b)).find?
        (fun d => d.should_stop) := by
  induction criteria with
  | nil => rfl
  | cons c rest ih =>
      rw [show firstStopping det (c :: rest) plan now b =
          (if (checkCriterion det c plan now b).should_stop then
            some (checkCriterion det c plan now b)
          else firstStopping det rest plan now b) from rfl]
      rw [List.map_cons]
      by_cases hc : (checkCriterion det c plan now b).should_stop = true
      · rw [if_pos hc, List.find?_cons_of_pos _ hc]
      · rw [if_neg hc, List.find?_cons_of_neg _ hc, ih]

/-- C3: `check_convergence` evaluates the configured mandatory criteria in
list order and returns the first stopping decision before consulting any
optional criterion; when no mandatory criterion fires it returns the first
stopping optional decision in list order; when nothing fires it returns the
fall-through non-stopping decision. Earlier-listed criteria thus win under
simultaneous firings. -/
theorem checkConvergence_order_spec (det : ConvergenceDetector)
    (plan : ResearchPlan) (hypotheses : List Hypothesis)
    (results : List ExperimentResult) (now : ℤ) :
    (∀ i (hi : i < (mandatoryDecisions det plan hypotheses results now).length),
      ((mandatoryDecisions det plan hypotheses results now).get ⟨i, hi⟩).should_stop
          = true →
      (∀ j (hj : j < i),
        ((mandatoryDecisions det plan hypotheses results now).get
          ⟨j, hj.trans hi⟩).should_stop = false) →
      (checkConvergence det plan hypotheses results now).1 =
        (mandatoryDecisions det plan hypotheses results now).get ⟨i, hi⟩) ∧
    ((∀ d ∈ mandatoryDecisions det plan hypotheses results now,
        d.should_stop = false) →
      ∀ i (hi : i < (optionalDecisions det plan hypotheses results now).length),
        ((optionalDecisions det plan hypotheses results now).get ⟨i, hi⟩).should_stop
            = true →
        (∀ j (hj : j < i),
          ((optionalDecisions det plan hypotheses results now).get
            ⟨j, hj.trans hi⟩).should_stop = false) →
        (checkConvergence det plan hypotheses results now).1 =
          (optionalDecisions det plan hypotheses results now).get ⟨i, hi⟩) ∧
    ((∀ d ∈ mandatoryDecisions det plan hypotheses results now,
        d.should_stop = false) →
      (∀ d ∈ optionalDecisions det plan hypotheses results now,
        d.should_stop = false) →
      (checkConvergence det plan hypotheses results now).1 = noStopDecision now) := by
  have hM : firstStopping (updateMetrics det plan hypotheses results now)
      (updateMetrics det plan hypotheses results now).mandatory_criteria plan now true =
      (mandatoryDecisions det plan hypotheses results now).find?
        (fun d => d.should_stop) := by
    rw [firstStopping_eq_find]
    rfl
  have hO : firstStopping (updateMetrics det plan hypotheses results now)
      (updateMetrics det plan hypotheses results now).optional_criteria plan now false =
      (optionalDecisions det plan hypotheses results now).find?
        (fun d => d.should_stop) := by
    rw [firstStopping_eq_find]
    rfl
  unfold checkConvergence
  dsimp only
  refine ⟨?_, ?_, ?_⟩
  · intro i hi hp hmin
    rw [hM, find?_eq_get_of_first _ _ i hi hp hmin]
  · intro hnone i hi hp hmin
    rw [hM, List.find?_eq_none.mpr (fun d hd => by simp [hnone d hd]), hO,
      find?_eq_get_of_first _ _ i hi hp hmin]
  · intro h1 h2
    rw [hM, List.find?_eq_none.mpr (fun d hd => by simp [h1 d hd]), hO,
      List.find?_eq_none.mpr (fun d hd => by simp [h2 d hd])]

/-- C3 witness: with the default criteria, on a plan whose untested pool
and experiment queue are empty but whose iteration limit is not reached,
the returned decision is exactly the second mandatory criterion's
(hypothesis exhaustion), mandatory and stopping, even though earlier and
optional criteria do not fire. -/
theorem checkConvergence_order_spec_witness :
    (checkConvergence detInit planDone [] [] 0).1 =
      checkHypothesisExhaustion planDone 0 ∧
    (checkHypothesisExhaustion planDone 0).should_stop = true ∧
    (checkHypothesisExhaustion planDone 0).is_mandatory = true := by
  have hi : (1 : ℕ) < (mandatoryDecisions detInit planDone [] [] 0).length := by
    decide
  have hp : ((mandatoryDecisions detInit planDone [] [] 0).get ⟨1, hi⟩).should_stop
      = true := rfl
  have hmin : ∀ j (hj : j < 1),
      ((mandatoryDecisions detInit planDone [] [] 0).get
        ⟨j, hj.trans hi⟩).should_stop = false := by
    intro j hj
    have hj0 : j = 0 := Nat.lt_one_iff.mp hj
    subst hj0
    rfl
  have h := (checkConvergence_order_spec detInit planDone [] [] 0).1 1 hi hp hmin
  exact ⟨h, rfl, rfl⟩

/-! ## C9: success-pattern merging -/

/-- C9: two supporting, successful results with the same primary test type,
processed in sequence from a state holding no pattern for that test type,
produce one stored pattern: the first call inserts it (occurrences 1,
examples [r1.id], success rate 1, confidence 0.5 from the extractor), the
second call merges into it — occurrences 2, the second result id appended
to examples, success rate recomputed as the running mean
(old*(n-1)+1)/n with n = 2, confidence raised by 0.1 capped at 1 — and the
pattern table does not grow. -/
theorem successPattern_merge_spec (st : FeedbackLoop) (r1 r2 : ExperimentResult)
    (h1 h2 : Hypothesis) (now1 now2 : ℤ) (p1 p2 : SuccessPattern)
    (sigs1 sigs2 : List FeedbackSignal) (st1 st2 : FeedbackLoop)
    (hs1 : r1.status = .success) (hb1 : r1.supports_hypothesis = some true)
    (hs2 : r2.status = .success) (hb2 : r2.supports_hypothesis = some true)
    (ht : r2.primary_test = r1.primary_test)
    (hp1 : extractSuccessPattern r1 h1 now1 = .ok p1)
    (hp2 : extractSuccessPattern r2 h2 now2 = .ok p2)
    (hfresh : ∀ e ∈ st.success_patterns,
      e.2.experiment_design.test_type ≠ r1.primary_test)
    (hkey : ∀ e ∈ st.success_patterns,
      e.1 ≠ "success_" ++ toString (st.success_patterns.length + 1))
    (hrun1 : processResultFeedback st r1 h1 now1 = .ok (sigs1, st1))
    (hrun2 : processResultFeedback st1 r2 h2 now2 = .ok (sigs2, st2)) :
    st1.success_patterns = st.success_patterns ++
      [("success_" ++ toString (st.success_patterns.length + 1),
        { p1 with pattern_id := "success_" ++ toString (st.success_patterns.length + 1) })] ∧
    st2.success_patterns = st.success_patterns ++
      [("success_" ++ toString (st.success_patterns.length + 1),
        { p1 with
          pattern_id := "success_" ++ toString (st.success_patterns.length + 1)
          occurrences := 2
          examples := p1.examples ++ [r2.id]
          success_rate := (p1.success_rate * ((2 : ℚ) - 1) + 1) / (2 : ℚ)
          confidence := min 1 (p1.confidence + 1 / 10)
          updated_at := now2 })] ∧
    p1.occurrences = 1 ∧ p1.examples = [r1.id] ∧ p1.success_rate = 1 ∧
    p1.confidence = 1 / 2 ∧
    st2.success_patterns.length = st1.success_patterns.length := by
  -- invert the two pattern extractions
  unfold extractSuccessPattern at hp1 hp2
  cases hes1 : r1.primary_effect_size with
  | none => rw [hes1] at hp1; exact absurd hp1 (by simp)
  | some es1 =>
  cases hes2 : r2.primary_effect_size with
  | none => rw [hes2] at hp2; exact absurd hp2 (by simp)
  | some es2 =>
  rw [hes1] at hp1
  rw [hes2] at hp2
  simp only [Except.ok.injEq] at hp1 hp2
  subst hp1
  subst hp2
  -- first call: success branch, no similar pattern, fresh key
  have hc1 : (r1.supports_hypothesis == some true &&
      r1.status == ResultStatus.success) = true := by rw [hb1, hs1]; rfl
  have hnone1 : st.success_patterns.find?
      (fun e => e.2.experiment_design.test_type == r1.primary_test) = none :=
    List.find?_eq_none.mpr (fun e he => by
      simp only [beq_iff_eq]
      exact hfresh e he)
  unfold processResultFeedback analyzeSuccess at hrun1
  rw [if_pos hc1] at hrun1
  unfold extractSuccessPattern at hrun1
  rw [hes1] at hrun1
  dsimp only at hrun1
  unfold findSimilarSuccessPattern at hrun1
  dsimp only at hrun1
  rw [hnone1] at hrun1
  rw [dictInsert_of_fresh st.success_patterns _ _ hkey] at hrun1
  simp only [Except.ok.injEq, Prod.mk.injEq] at hrun1
  obtain ⟨hsig1, hst1⟩ := hrun1
  subst hst1
  -- second call: success branch, merges with the stored pattern
  have hc2 : (r2.supports_hypothesis == some true &&
      r2.status == ResultStatus.success) = true := by rw [hb2, hs2]; rfl
  have hnone2 : st.success_patterns.find?
      (fun e => e.2.experiment_design.test_type == r2.primary_test) = none :=
    List.find?_eq_none.mpr (fun e he => by
      simp only [beq_iff_eq, ht]
      exact hfresh e he)
  unfold processResultFeedback analyzeSuccess at hrun2
  rw [if_pos hc2] at hrun2
  unfold extractSuccessPattern at hrun2
  rw [hes2] at hrun2
  dsimp only at hrun2
  unfold findSimilarSuccessPattern at hrun2
  dsimp only at hrun2
  rw [List.find?_append, hnone2, Option.none_or] at hrun2
  rw [List.find?_cons_of_pos _ (by simp [ht])] at hrun2
  dsimp only at hrun2
  rw [List.map_append, map_keyfree st.success_patterns _ _ hkey] at hrun2
  simp only [List.map_cons, List.map_nil, beq_self_eq_true, if_true] at hrun2
  simp only [Except.ok.injEq, Prod.mk.injEq] at hrun2
  obtain ⟨hsig2, hst2⟩ := hrun2
  subst hst2
  refine ⟨rfl, ?_, rfl, rfl, rfl, rfl, by simp⟩
  dsimp only
  congr 2

/-- C9 witness: processing `rOk1` then `rOk2` (same primary test `t_test`)
from a fresh loop leaves one stored pattern with occurrences 2, both result
ids in its examples, running-mean success rate and confidence 0.5 + 0.1. -/
theorem successPattern_merge_spec_witness :
    c9Run2.2.success_patterns =
      [("success_1",
        { patOk1 with
          pattern_id := "success_1"
          occurrences := 2
          examples := patOk1.examples ++ [rOk2.id]
          success_rate := (patOk1.success_rate * ((2 : ℚ) - 1) + 1) / (2 : ℚ)
          confidence := min 1 (patOk1.confidence + 1 / 10)
          updated_at := 0 })] ∧
    patOk1.occurrences = 1 ∧ patOk1.examples = [rOk1.id] ∧
    c9Run2.2.success_patterns.length = c1Run.2.success_patterns.length := by
  have H := successPattern_merge_spec FeedbackLoop.init rOk1 rOk2 hypA hypA 0 0
    patOk1 patOk2 c1Run.1 c9Run2.1 c1Run.2 c9Run2.2 rfl rfl rfl rfl rfl rfl rfl
    (by simp [FeedbackLoop.init]) (by simp [FeedbackLoop.init]) rfl rfl
  exact ⟨by rw [H.2.1]; rfl, H.2.2.1, H.2.2.2.1, H.2.2.2.2.2.2⟩

/-! ## C8: query access bookkeeping and frame -/

/-- C8: every memory returned by `query_memory` is the accessed version of
a stored memory — its access count incremented by exactly 1 and its
last-accessed time set to now — while every stored memory whose id is not
among the returned ids (non-matching, or matching but beyond the limit
cutoff) stays in its category list unchanged; returned memories appear
updated in the post-query store. -/
theorem queryMemory_spec (st : MemoryStore) (category : Option MemoryCategory)
    (tags : List String) (min_importance : ℚ) (limit : ℕ) (now : ℤ) :
    (∀ r ∈ (queryMemory st category tags min_importance limit now).1,
      ∃ c, ∃ m ∈ st.memories c, m.id = r.id ∧ r = m.access now ∧
        r.access_count = m.access_count + 1 ∧ r.last_accessed = now) ∧
    (∀ c : MemoryCategory, ∀ m ∈ st.memories c,
      (∀ r ∈ (queryMemory st category tags min_importance limit now).1,
        r.id ≠ m.id) →
      m ∈ (queryMemory st category tags min_importance limit now).2.memories c) ∧
    (∀ c : MemoryCategory, ∀ m ∈ st.memories c,
      (∃ r ∈ (queryMemory st category tags min_importance limit now).1,
        r.id = m.id) →
      Memory.access m now ∈
        (queryMemory st category tags min_importance limit now).2.memories c) := by
  unfold queryMemory
  dsimp only
  refine ⟨?_, ?_, ?_⟩
  · intro r hr
    rw [List.mem_map] at hr
    obtain ⟨p, hp, rfl⟩ := hr
    obtain ⟨c, hc, hpc⟩ :=
      List.mem_flatMap.mp (List.mem_mergeSort.mp (List.mem_of_mem_take hp))
    exact ⟨c, p, (List.mem_filter.mp hpc).1, rfl, rfl, rfl, rfl⟩
  · intro c m hm hnot
    refine List.mem_map.mpr ⟨m, hm, if_neg (fun hcon => ?_)⟩
    simp only [List.contains] at hcon
    obtain ⟨p, hp, hpid⟩ := List.mem_map.mp (List.elem_iff.mp hcon)
    exact hnot (p.access now) (List.mem_map_of_mem _ hp) hpid
  · intro c m hm hex
    obtain ⟨r, hr, hrid⟩ := hex
    refine List.mem_map.mpr ⟨m, hm, if_pos ?_⟩
    simp only [List.contains]
    refine List.elem_iff.mpr ?_
    rw [List.mem_map] at hr ⊢
    obtain ⟨p, hp, hpr⟩ := hr
    subst hpr
    exact ⟨p, hp, hrid⟩

/-- C8 witness: querying insights with importance floor 1 on a concrete
store returns exactly the matching memory with access count 1; the
filtered-out insight and the general-category memory are untouched in the
post-query store, and the returned memory appears there updated. -/
theorem queryMemory_spec_witness :
    (queryMemory msW8 (some .insights) [] 1 10 0).1 = [memKeep.access 0] ∧
    memLow ∈ (queryMemory msW8 (some .insights) [] 1 10 0).2.memories .insights ∧
    ({ memTag "g" 1 0 0 [] with category := .general }) ∈
      (queryMemory msW8 (some .insights) [] 1 10 0).2.memories .general ∧
    memKeep.access 0 ∈
      (queryMemory msW8 (some .insights) [] 1 10 0).2.memories .insights ∧
    (memKeep.access 0).access_count = memKeep.access_count + 1 := by
  have hret : (queryMemory msW8 (some .insights) [] 1 10 0).1 =
      [memKeep.access 0] := by
    norm_num [queryMemory, msW8, memKeep, memLow, memTag, Memory.access,
      List.filter_cons, queryKey]
  have T := queryMemory_spec msW8 (some .insights) [] 1 10 0
  refine ⟨hret, ?_, ?_, ?_, rfl⟩
  · refine T.2.1 .insights memLow (by simp [msW8]) ?_
    intro r hr
    rw [hret, List.mem_singleton] at hr
    subst hr
    decide
  · refine T.2.1 .general _ (by simp [msW8]) ?_
    intro r hr
    rw [hret, List.mem_singleton] at hr
    subst hr
    decide
  · exact T.2.2 .insights memKeep (by simp [msW8])
      ⟨memKeep.access 0, by rw [hret]; exact List.mem_singleton_self _, rfl⟩

end Kosmos
